import Mathlib

/-!
# Verification of `imghdr.py` (minimal `imghdr` replacement)

Shallow embedding of the repository's single source file `src/imghdr.py`,
which provides `_read_bytes` (normalizing a source — absent, raw bytes,
filesystem path, or file-like stream — into a byte header) and `what`
(classifying the header against a fixed ordered table of magic-byte
signatures).

Bytes are modelled as `Nat`, byte strings as `List Nat`.  The filesystem
is a partial map from paths to contents (`none` = nonexistent/unreadable).
A file-like object is modelled by its content, current read position,
whether it supports `seek`/`tell`, and whether its `read` call raises.
Fallible operations return `Except Unit`: `Except.error ()` models an
uncaught Python exception propagating to the caller.
-/

/-- A byte sequence (each entry one byte value). -/
abbrev ByteSeq := List Nat

/-- The JPEG signature `b"\xff\xd8\xff"`, tested at `imghdr.py:47`. -/
def jpegSig : ByteSeq := [0xff, 0xd8, 0xff]

/-- The PNG signature `b"\x89PNG\r\n\x1a\n"`, tested at `imghdr.py:50`. -/
def pngSig : ByteSeq := [0x89, 0x50, 0x4e, 0x47, 0x0d, 0x0a, 0x1a, 0x0a]

/-- The first GIF signature `b"GIF87a"`, tested at `imghdr.py:53`. -/
def gif87Sig : ByteSeq := [0x47, 0x49, 0x46, 0x38, 0x37, 0x61]

/-- The second GIF signature `b"GIF89a"`, tested at `imghdr.py:53`. -/
def gif89Sig : ByteSeq := [0x47, 0x49, 0x46, 0x38, 0x39, 0x61]

/-- The BMP signature `b"BM"`, tested at `imghdr.py:56`. -/
def bmpSig : ByteSeq := [0x42, 0x4d]

/-- The little-endian TIFF marker `b"II*\x00"`, tested at `imghdr.py:59`. -/
def tiffIISig : ByteSeq := [0x49, 0x49, 0x2a, 0x00]

/-- The big-endian TIFF marker `b"MM\x00*"`, tested at `imghdr.py:59`. -/
def tiffMMSig : ByteSeq := [0x4d, 0x4d, 0x00, 0x2a]

/-- The RIFF tag `b"RIFF"`, compared against `header[0:4]` at `imghdr.py:62`. -/
def riffSig : ByteSeq := [0x52, 0x49, 0x46, 0x46]

/-- The WEBP tag `b"WEBP"`, compared against `header[8:12]` at `imghdr.py:62`. -/
def webpSig : ByteSeq := [0x57, 0x45, 0x42, 0x50]

/-- The ICO signature `b"\x00\x00\x01\x00"`, tested at `imghdr.py:65`. -/
def icoSig : ByteSeq := [0x00, 0x00, 0x01, 0x00]

/-- The signature-matching stage of `what` (`imghdr.py:43-68`): given the
already-obtained `header`, return `None` on an empty header, otherwise the
label of the first matching rule, else `None`.  Python's
`bytes.startswith` is `List.isPrefixOf`; the slice comparisons
`header[0:4] == b"RIFF"` and `header[8:12] == b"WEBP"` are
`take`/`drop`-based equality (a Python slice silently shortens when the
sequence is too short; so does `take`/`drop`). -/
def whatH (header : ByteSeq) : Option String :=
  if header.isEmpty then none
  else if jpegSig.isPrefixOf header then some "jpeg"
  else if pngSig.isPrefixOf header then some "png"
  else if gif87Sig.isPrefixOf header || gif89Sig.isPrefixOf header then some "gif"
  else if bmpSig.isPrefixOf header then some "bmp"
  else if tiffIISig.isPrefixOf header || tiffMMSig.isPrefixOf header then some "tiff"
  else if (header.take 4 == riffSig) && ((header.drop 8).take 4 == webpSig) then some "webp"
  else if icoSig.isPrefixOf header then some "ico"
  else none

/-- A file-like object (`imghdr.py:24-34`): its content, current read
position, whether it has `seek`/`tell`, and whether calling `read` raises. -/
structure FileStream where
  content : ByteSeq
  pos : Nat
  seekable : Bool
  readFails : Bool
deriving DecidableEq

/-- The file-like branch of `_read_bytes` (`imghdr.py:24-34`): inside
`try`, record the position and seek to 0 when seekable, call `read(n)`
(which may raise — then the `except` returns `b""` with the stream left
wherever it was), seek back when seekable, and return the data. -/
def readBytesStream (s : FileStream) (n : Nat) : ByteSeq × FileStream :=
  let p0 := s.pos
  let s1 := if s.seekable then { s with pos := 0 } else s
  if s.readFails then ([], s1)
  else
    let data := (s1.content.drop s1.pos).take n
    let s2 := { s1 with pos := min (s1.pos + n) s1.content.length }
    if s.seekable then (data, { s2 with pos := p0 }) else (data, s2)

/-- The possible values of the `file` argument of `what` / `_read_bytes`:
`None`, a `bytes`/`bytearray`, a filesystem path, or a file-like object. -/
inductive Source where
  | noneS : Source
  | bytesS (b : ByteSeq) : Source
  | pathS (p : String) : Source
  | streamS (s : FileStream) : Source
deriving DecidableEq

/-- A filesystem: maps a path to its content, or `none` when the file does
not exist or cannot be opened for reading. -/
abbrev FS := String → Option ByteSeq

/-- Embedding of `_read_bytes(file, n)` (`imghdr.py:14-34`).  `None` gives `b""`; raw
bytes are sliced with no I/O; a path is opened and read — note the `open`
at `imghdr.py:21` sits OUTSIDE the `try` block, so an open failure is an
uncaught exception (`Except.error ()`); a file-like object goes through
`readBytesStream`, whose failures are caught. -/
def readBytesSrc (fs : FS) (src : Source) (n : Nat) : Except Unit (ByteSeq × Source) :=
  match src with
  | .noneS => .ok ([], .noneS)
  | .bytesS b => .ok (b.take n, .bytesS b)
  | .pathS p =>
      match fs p with
      | some c => .ok (c.take n, .pathS p)
      | none => .error ()
  | .streamS s =>
      let r := readBytesStream s n
      .ok (r.1, .streamS r.2)

/-- Embedding of `what(file, h)` (`imghdr.py:37-68`): `header = h if h is not None else
_read_bytes(file, 64)`, then the signature-matching stage `whatH`.  The
result pairs the returned label with the (possibly advanced) source so
that frame effects on streams are observable. -/
def what (fs : FS) (src : Source) (h : Option ByteSeq) :
    Except Unit (Option String × Source) :=
  match h with
  | some hdr => .ok (whatH hdr, src)
  | none =>
      match readBytesSrc fs src 64 with
      | .ok (d, src1) => .ok (whatH d, src1)
      | .error e => .error e

/-- A filesystem with no readable files. -/
def emptyFS : FS := fun _ => none

/-- A filesystem whose every path holds a JPEG header. -/
def jpegFS : FS := fun _ => some jpegSig

/-- Rule 1 of the spec's ordered table: the header starts with the JPEG
signature. -/
def jpegRule (h : ByteSeq) : Bool := jpegSig.isPrefixOf h

/-- Rule 2: the header starts with the PNG signature. -/
def pngRule (h : ByteSeq) : Bool := pngSig.isPrefixOf h

/-- Rule 3: the header starts with `GIF87a` or `GIF89a`. -/
def gifRule (h : ByteSeq) : Bool := gif87Sig.isPrefixOf h || gif89Sig.isPrefixOf h

/-- Rule 4: the header starts with `BM`. -/
def bmpRule (h : ByteSeq) : Bool := bmpSig.isPrefixOf h

/-- Rule 5: the header starts with one of the two TIFF byte-order marks. -/
def tiffRule (h : ByteSeq) : Bool := tiffIISig.isPrefixOf h || tiffMMSig.isPrefixOf h

/-- Rule 6: offsets 0..3 equal `RIFF` and offsets 8..11 equal `WEBP`
(offsets 4..7, the RIFF chunk size, are not inspected). -/
def webpRule (h : ByteSeq) : Bool := (h.take 4 == riffSig) && ((h.drop 8).take 4 == webpSig)

/-- Rule 7: the header starts with the ICO signature. -/
def icoRule (h : ByteSeq) : Bool := icoSig.isPrefixOf h

/-- Modelled from the spec's words (section 4.2): the fixed, ordered table
of signature rules, each a predicate paired with its canonical label. -/
def specRules : List ((ByteSeq → Bool) × String) :=
  [(jpegRule, "jpeg"), (pngRule, "png"), (gifRule, "gif"), (bmpRule, "bmp"),
   (tiffRule, "tiff"), (webpRule, "webp"), (icoRule, "ico")]

/-- First-match-wins evaluation of an ordered rule table. -/
def firstMatch : List ((ByteSeq → Bool) × String) → ByteSeq → Option String
  | [], _ => none
  | r :: rs, h => if r.1 h then some r.2 else firstMatch rs h

/-- Modelled from the spec's words (section 4.2): on an empty header
return no-match immediately, otherwise evaluate `specRules` in order and
return the first matching rule's label, else no-match. -/
def specClassify (h : ByteSeq) : Option String :=
  if h.isEmpty then none else firstMatch specRules h

/-- A signature cannot be a prefix of a strictly shorter header. -/
theorem isPrefixOf_eq_false_of_length_lt (sig h : ByteSeq) (hl : h.length < sig.length) :
    sig.isPrefixOf h = false := by
  induction sig generalizing h with
  | nil => simp at hl
  | cons a as ih =>
      cases h with
      | nil => rfl
      | cons b bs =>
          simp only [List.isPrefixOf, Bool.and_eq_false_iff]
          exact Or.inr (ih bs (Nat.lt_of_succ_lt_succ hl))

/-- Truncating the header to at least the signature's length does not
change whether the signature is a prefix of it. -/
theorem isPrefixOf_take (sig h : ByteSeq) (n : Nat) (hl : sig.length ≤ n) :
    sig.isPrefixOf (h.take n) = sig.isPrefixOf h := by
  induction sig generalizing h n with
  | nil => simp [List.isPrefixOf]
  | cons a as ih =>
      cases h with
      | nil => simp
      | cons b bs =>
          cases n with
          | zero => simp at hl
          | succ m =>
              simp only [List.take_succ_cons, List.isPrefixOf]
              rw [ih bs m (Nat.le_of_succ_le_succ hl)]

/-- C1 counterexample: on a filesystem with no readable files, `what`
applied to a path source raises (`Except.error`) instead of returning the
no-match value — the claim that the I/O failure is swallowed is false. -/
theorem c1_path_error_counterexample :
    what emptyFS (Source.pathS "missing.png") none = Except.error () ∧
    emptyFS "missing.png" = none :=
  ⟨rfl, rfl⟩

/-- C1 (amended): an I/O failure is swallowed and treated as an empty
prefix only for a file-like stream source — there `what` returns the
no-match value; for a filesystem path that does not refer to an existing
readable file, the `open` at `imghdr.py:21` sits outside the `try` block
and the exception propagates to the caller. -/
theorem c1_io_failure_handling (fs : FS) (p : String) (s : FileStream)
    (hp : fs p = none) (hs : s.readFails = true) :
    what fs (Source.pathS p) none = Except.error () ∧
    what fs (Source.streamS s) none =
      Except.ok (none, Source.streamS (if s.seekable then { s with pos := 0 } else s)) := by
  constructor
  · simp [what, readBytesSrc, hp]
  · simp [what, readBytesSrc, readBytesStream, hs, whatH]

/-- C1 witness: instantiating the amended theorem at a concrete missing
path and a concrete failing stream. -/
theorem c1_io_failure_handling_witness :
    what emptyFS (Source.pathS "a.png") none = Except.error () ∧
    what emptyFS (Source.streamS ⟨[1, 2], 1, true, true⟩) none =
      Except.ok (none, Source.streamS ⟨[1, 2], 0, true, true⟩) :=
  c1_io_failure_handling emptyFS "a.png" ⟨[1, 2], 1, true, true⟩ rfl rfl

/-- C2 counterexample: a seekable stream (position 2) whose `read` raises
is left at position 0 after `what` — the seek-back is skipped, so the
position is NOT restored when the read raises. -/
theorem c2_position_counterexample :
    what emptyFS (Source.streamS ⟨[1, 2, 3], 2, true, true⟩) none =
      Except.ok (none, Source.streamS ⟨[1, 2, 3], 0, true, true⟩) ∧
    (FileStream.mk [1, 2, 3] 0 true true).pos ≠ (FileStream.mk [1, 2, 3] 2 true true).pos :=
  ⟨rfl, by decide⟩

/-- C2 (amended): for a seekable stream whose `read` succeeds, `what`
returns the classification of the first 64 content bytes and leaves the
stream exactly as it was (so a second call yields the same result with no
net consumption); if the `read` raises, the exception is swallowed, the
result is the no-match value, and the stream is left at position 0 rather
than restored. -/
theorem c2_seekable_position (fs : FS) (s : FileStream) (hseek : s.seekable = true) :
    (s.readFails = false →
      what fs (Source.streamS s) none =
        Except.ok (whatH (s.content.take 64), Source.streamS s)) ∧
    (s.readFails = true →
      what fs (Source.streamS s) none =
        Except.ok (none, Source.streamS { s with pos := 0 })) := by
  obtain ⟨c, q, sk, rf⟩ := s
  dsimp only at hseek
  subst hseek
  constructor
  · intro hf
    dsimp only at hf
    subst hf
    simp [what, readBytesSrc, readBytesStream]
  · intro hf
    dsimp only at hf
    subst hf
    simp [what, readBytesSrc, readBytesStream, whatH]

/-- C2 witness: a concrete seekable stream holding a JPEG header at
position 1 is classified as jpeg and left untouched; a concrete failing
seekable stream yields the no-match value and is left at position 0. -/
theorem c2_seekable_position_witness :
    (what emptyFS (Source.streamS ⟨[0xff, 0xd8, 0xff], 1, true, false⟩) none =
      Except.ok (some "jpeg", Source.streamS ⟨[0xff, 0xd8, 0xff], 1, true, false⟩)) ∧
    (what emptyFS (Source.streamS ⟨[0xff, 0xd8, 0xff], 1, true, true⟩) none =
      Except.ok (none, Source.streamS ⟨[0xff, 0xd8, 0xff], 0, true, true⟩)) :=
  ⟨(c2_seekable_position emptyFS ⟨[0xff, 0xd8, 0xff], 1, true, false⟩ rfl).1 rfl,
   (c2_seekable_position emptyFS ⟨[0xff, 0xd8, 0xff], 1, true, true⟩ rfl).2 rfl⟩

/-- C3: the signature-matching stage of `what` equals first-match-wins
evaluation of the spec's ordered rule table (jpeg, png, gif, bmp, tiff,
webp, ico) with no-match on an empty header, and its result is always
exactly one of the seven labels or the no-match value. -/
theorem c3_rule_order_and_closed_result (h : ByteSeq) :
    whatH h = specClassify h ∧
    (whatH h = none ∨ whatH h = some "jpeg" ∨ whatH h = some "png" ∨
      whatH h = some "gif" ∨ whatH h = some "bmp" ∨ whatH h = some "tiff" ∨
      whatH h = some "webp" ∨ whatH h = some "ico") := by
  constructor
  · simp only [whatH, specClassify, specRules, firstMatch,
      jpegRule, pngRule, gifRule, bmpRule, tiffRule, webpRule, icoRule]
  · unfold whatH
    split_ifs <;> simp

/-- C4: when an override prefix `h` is present, `what` returns the
classification of `h` alone, touches neither the filesystem nor the
source (the source comes back unchanged), and the label is independent of
both the source and the filesystem. -/
theorem c4_override_ignores_source (fs fs' : FS) (src src' : Source) (hdr : ByteSeq) :
    what fs src (some hdr) = Except.ok (whatH hdr, src) ∧
    (what fs src (some hdr)).map Prod.fst = (what fs' src' (some hdr)).map Prod.fst :=
  ⟨rfl, rfl⟩

/-- C5: a header shorter than a signature simply fails that rule's
startswith/offset-equality check — each rule predicate evaluates to
`false` (it never raises; all rules are total functions) on any header
shorter than the bytes it inspects. -/
theorem c5_short_header_fails_rules (h : ByteSeq) :
    (h.length < 3 → jpegRule h = false) ∧
    (h.length < 8 → pngRule h = false) ∧
    (h.length < 6 → gifRule h = false) ∧
    (h.length < 2 → bmpRule h = false) ∧
    (h.length < 4 → tiffRule h = false) ∧
    (h.length < 12 → webpRule h = false) ∧
    (h.length < 4 → icoRule h = false) := by
  refine ⟨fun hl => ?_, fun hl => ?_, fun hl => ?_, fun hl => ?_, fun hl => ?_,
    fun hl => ?_, fun hl => ?_⟩
  · exact isPrefixOf_eq_false_of_length_lt _ _ hl
  · exact isPrefixOf_eq_false_of_length_lt _ _ hl
  · simp only [gifRule, Bool.or_eq_false_iff]
    exact ⟨isPrefixOf_eq_false_of_length_lt _ _ hl, isPrefixOf_eq_false_of_length_lt _ _ hl⟩
  · exact isPrefixOf_eq_false_of_length_lt _ _ hl
  · simp only [tiffRule, Bool.or_eq_false_iff]
    exact ⟨isPrefixOf_eq_false_of_length_lt _ _ hl, isPrefixOf_eq_false_of_length_lt _ _ hl⟩
  · simp only [webpRule, Bool.and_eq_false_iff]
    right
    rw [beq_eq_false_iff_ne]
    intro hcontra
    have hlen : ((h.drop 8).take 4).length = webpSig.length := by rw [hcontra]
    simp [List.length_take, List.length_drop, webpSig] at hlen
    omega
  · exact isPrefixOf_eq_false_of_length_lt _ _ hl

/-- C5 witness: every rule predicate evaluates to `false` on the concrete
one-byte header `[7]`. -/
theorem c5_short_header_fails_rules_witness :
    jpegRule [7] = false ∧ pngRule [7] = false ∧ gifRule [7] = false ∧
    bmpRule [7] = false ∧ tiffRule [7] = false ∧ webpRule [7] = false ∧
    icoRule [7] = false :=
  ⟨(c5_short_header_fails_rules [7]).1 (by decide),
   (c5_short_header_fails_rules [7]).2.1 (by decide),
   (c5_short_header_fails_rules [7]).2.2.1 (by decide),
   (c5_short_header_fails_rules [7]).2.2.2.1 (by decide),
   (c5_short_header_fails_rules [7]).2.2.2.2.1 (by decide),
   (c5_short_header_fails_rules [7]).2.2.2.2.2.1 (by decide),
   (c5_short_header_fails_rules [7]).2.2.2.2.2.2 (by decide)⟩

/-- C6: any header of the form `RIFF` + 4 arbitrary chunk-size bytes +
`WEBP` + anything is classified as webp, for all values of the 4
chunk-size bytes and of the tail. -/
theorem c6_webp_ignores_chunk_size (b4 b5 b6 b7 : Nat) (rest : ByteSeq) :
    whatH ([0x52, 0x49, 0x46, 0x46] ++ [b4, b5, b6, b7] ++
      [0x57, 0x45, 0x42, 0x50] ++ rest) = some "webp" := by
  simp [whatH, jpegSig, pngSig, gif87Sig, gif89Sig, bmpSig, tiffIISig, tiffMMSig,
    riffSig, webpSig, icoSig, List.isPrefixOf]

/-- C7: every header of length < 2 is classified as no-match (in
particular the empty header, via the immediate empty-header exit at
`imghdr.py:43`, before any rule is consulted), and an absent (`None`)
source is read as the empty prefix and classified as no-match. -/
theorem c7_short_header_no_match (fs : FS) (b : ByteSeq) (hb : b.length < 2) :
    whatH b = none ∧ what fs Source.noneS none = Except.ok (none, Source.noneS) := by
  refine ⟨?_, rfl⟩
  match b with
  | [] => rfl
  | [x] =>
      simp [whatH, jpegSig, pngSig, gif87Sig, gif89Sig, bmpSig, tiffIISig,
        tiffMMSig, riffSig, webpSig, icoSig, List.isPrefixOf]
  | _ :: _ :: _ =>
      exact absurd hb (by simp)

/-- C7 witness: the concrete one-byte header `[7]` and the absent source
both yield no-match. -/
theorem c7_short_header_no_match_witness :
    whatH [7] = none ∧ what emptyFS Source.noneS none = Except.ok (none, Source.noneS) :=
  c7_short_header_no_match emptyFS [7] (by decide)

/-- C8: round-trip between the two input shapes — classifying a readable
file whose first 64 bytes are `X` gives the same label as classifying
with `X` supplied as the override prefix. -/
theorem c8_override_file_round_trip (fs : FS) (p : String) (content X : ByteSeq)
    (h1 : fs p = some content) (h2 : content.take 64 = X) :
    what fs (Source.pathS p) none = Except.ok (whatH X, Source.pathS p) ∧
    what fs Source.noneS (some X) = Except.ok (whatH X, Source.noneS) := by
  refine ⟨?_, rfl⟩
  simp [what, readBytesSrc, h1, h2]

/-- C8 witness: a file holding exactly the JPEG signature round-trips
with the JPEG signature given as the override prefix — both give "jpeg". -/
theorem c8_override_file_round_trip_witness :
    what jpegFS (Source.pathS "img.jpg") none =
      Except.ok (some "jpeg", Source.pathS "img.jpg") ∧
    what jpegFS Source.noneS (some jpegSig) = Except.ok (some "jpeg", Source.noneS) :=
  c8_override_file_round_trip jpegFS "img.jpg" jpegSig jpegSig rfl rfl

/-- C9: an empty but present override prefix yields the no-match value
with no read of any source: for every filesystem and every source —
including a path that would raise and a stream that would advance — the
source comes back unchanged and no error is possible. -/
theorem c9_empty_override_no_fallback (fs : FS) (src : Source) :
    what fs src (some []) = Except.ok (none, src) :=
  rfl

/-- C10: the classification depends only on the first 12 bytes of the
header — truncating any header to 12 bytes leaves the result unchanged
(the longest pattern inspected, the webp check, ends at offset 11). -/
theorem c10_only_first_twelve_bytes (b : ByteSeq) :
    whatH b = whatH (b.take 12) := by
  have h0 : (b.take 12).isEmpty = b.isEmpty := by cases b <;> simp
  have hw1 : (b.take 12).take 4 = b.take 4 := by simp [List.take_take]
  have hw2 : ((b.take 12).drop 8).take 4 = (b.drop 8).take 4 := by
    rw [List.drop_take]
    norm_num [List.take_take]
  rw [whatH, whatH, h0, hw1, hw2,
    isPrefixOf_take jpegSig b 12 (by decide),
    isPrefixOf_take pngSig b 12 (by decide),
    isPrefixOf_take gif87Sig b 12 (by decide),
    isPrefixOf_take gif89Sig b 12 (by decide),
    isPrefixOf_take bmpSig b 12 (by decide),
    isPrefixOf_take tiffIISig b 12 (by decide),
    isPrefixOf_take tiffMMSig b 12 (by decide),
    isPrefixOf_take icoSig b 12 (by decide)]
